import Mathlib

/-!
# The scene script `src/script.js`

A shallow embedding of the module-level state of `src/script.js` and of the
functions and event handlers that mutate it.

Conventions of the embedding:

* JavaScript numbers are exact rationals (`ℚ`); the literals `1.96`, `0.82`,
  `0.04`, `-0.1` are the decimal fractions they denote.
* A `THREE.Color` is represented by the hex code it was last given
  (`new THREE.Color('#c8f0f9')`, `setHex(0xc8f0f9)` and `getHex()` all speak
  about the code `0xc8f0f9`).
* The libraries the script imports (three, tween, OrbitControls, dat.gui) are
  not part of the repository. What the script relies on is modelled next to the
  place that uses it and said so in the doc comment; `Math.PI`, the clock, the
  window metrics and the orbit mathematics of `controls.update()` are taken as
  parameters (`Host`).
-/

namespace CityScene

/-! ## Data model -/

/-- The `THREE.Vector3` triple. -/
structure Vector3 where
  x : ℚ
  y : ℚ
  z : ℚ
deriving DecidableEq, Repr

/-- Objects the script adds to the scene graph with `scene.add`. -/
inductive Object3D where
  | camera
  | ambient
  | sunLight
  | gltf (id : Nat)
deriving DecidableEq, Repr

/-- The `scene` object: background colour (hex code) and children. -/
structure Scene where
  background : Nat
  children : List Object3D
deriving DecidableEq, Repr

/-- The `renderer` object: pixel ratio, drawing surface size, and the number of
frames produced by `renderer.render`. -/
structure Renderer where
  pixelRatio : ℚ
  width : Nat
  height : Nat
  frames : Nat
deriving DecidableEq, Repr

/-- The `camera` object (`THREE.PerspectiveCamera`). `projectionAspect` is the
aspect ratio baked into the projection matrix by the last
`updateProjectionMatrix()`. -/
structure Camera where
  fov : ℚ
  aspect : ℚ
  near : ℚ
  far : ℚ
  position : Vector3
  projectionAspect : ℚ
deriving DecidableEq, Repr

/-- The `controls` object (`OrbitControls`): the fields the script reads or
writes. `maxDistance = none` stands for `Infinity`. -/
structure OrbitControls where
  enabled : Bool
  target : Vector3
  enableDamping : Bool
  dampingFactor : ℚ
  minDistance : ℚ
  maxDistance : Option ℚ
  enableRotate : Bool
  enableZoom : Bool
  maxPolarAngle : ℚ
deriving DecidableEq, Repr

/-- The `ambient` light (`THREE.AmbientLight`). -/
structure AmbientLight where
  color : Nat
  intensity : ℚ
deriving DecidableEq, Repr

/-- The `sunLight` (`THREE.DirectionalLight`). -/
structure DirectionalLight where
  color : Nat
  intensity : ℚ
  position : Vector3
deriving DecidableEq, Repr

/-- A started tween on `camera.position`, with Quartic.InOut easing and the
script's completion callback. -/
structure Tween where
  valuesStart : Vector3
  valuesEnd : Vector3
  duration : ℚ
  delayTime : ℚ
  startTime : ℚ
deriving DecidableEq, Repr

/-- The `lightParams` object (script lines 125-131). -/
structure LightParams where
  dirLightIntensity : ℚ
  dirLightColor : Nat
  ambLightIntensity : ℚ
  ambLightColor : Nat
  bgColor : Nat
deriving DecidableEq, Repr

/-- The module-level state of the script. `tween` is the registry of the
`TWEEN` library (the script creates a single tween); `display` is what the five
panel controllers currently show; `console` collects what `console.log`
printed. -/
structure State where
  scene : Scene
  renderer : Renderer
  camera : Camera
  controls : OrbitControls
  ambient : AmbientLight
  sunLight : DirectionalLight
  tween : Option Tween
  lightParams : LightParams
  display : LightParams
  isDarkMode : Bool
  console : List Vector3
deriving DecidableEq, Repr

/-- What the script takes from its host: the clock value when the script runs
(`now`), the window metrics, `Math.PI`, and the effect of
`OrbitControls.update()` on the camera position (`orbit`). -/
structure Host where
  now : ℚ
  innerWidth : Nat
  innerHeight : Nat
  devicePixelRatio : ℚ
  PI : ℚ
  orbit : OrbitControls → Vector3 → Vector3

/-! ## Functions of the script -/

/-- Script lines 96-104. -/
def setOrbitControlsLimits (h : Host) (s : State) : State :=
  { s with controls :=
      { s.controls with
        enableDamping := true
        dampingFactor := 0.04
        minDistance := 35
        maxDistance := some 60
        enableRotate := true
        enableZoom := true
        maxPolarAngle := h.PI / 2.5 } }

/-- Start pose of the intro tween: `camera.position.set(26, 4, -35)`. -/
def introStart : Vector3 := ⟨26, 4, -35⟩

/-- End pose of the intro tween: `x: 16, y: 50, z: -0.1`. -/
def introEnd : Vector3 := ⟨16, 50, -0.1⟩

/-- Script lines 76-90: disable the controls, put the camera on the start pose
and start the tween (`start()` records `startTime = now + delay` and the
current position as start values). -/
def introAnimation (h : Host) (s : State) : State :=
  let s1 := { s with controls := { s.controls with enabled := false } }
  let s2 := { s1 with camera := { s1.camera with position := introStart } }
  let tw : Tween :=
    { valuesStart := s2.camera.position
      valuesEnd := introEnd
      duration := 6500
      delayTime := 1000
      startTime := h.now + 1000 }
  { s2 with tween := some tw }

/-- The completion callback (script lines 85-89): enable the controls, install
the limits, remove the tween from the registry. -/
def onComplete (h : Host) (s : State) : State :=
  let s1 := { s with controls := { s.controls with enabled := true } }
  let s2 := setOrbitControlsLimits h s1
  { s2 with tween := none }

/-- The easing `TWEEN.Easing.Quartic.InOut` of the tween library:
`if ((k *= 2) < 1) return 0.5*k*k*k*k; return -0.5 * ((k -= 2)*k*k*k - 2)`. -/
def quarticInOut (k : ℚ) : ℚ :=
  let k2 := k * 2
  if k2 < 1 then 0.5 * k2 * k2 * k2 * k2
  else
    let k3 := k2 - 2
    (-0.5 : ℚ) * (k3 * k3 * k3 * k3 - 2)

/-- Linear interpolation of one coordinate as the tween library does it:
`start + (end - start) * value`. -/
def lerp (a b value : ℚ) : ℚ := a + (b - a) * value

/-- Interpolation of the three coordinates. -/
def lerp3 (a b : Vector3) (value : ℚ) : Vector3 :=
  ⟨lerp a.x b.x value, lerp a.y b.y value, lerp a.z b.z value⟩

/-- Modelled from the spec: `TWEEN.update()` belongs to the tween library,
which is not under `src/`. Following section 8 of the spec (position is
`lerp(start, end, easing(clamp((t - delay) / duration, 0, 1)))`, and at
`t = delay + duration` the completion callback runs): nothing happens before
the start time; afterwards the position is written from the eased progress,
and when the progress reaches 1 the completion callback of the script runs. -/
def tweenUpdate (h : Host) (time : ℚ) (s : State) : State :=
  match s.tween with
  | none => s
  | some tw =>
    if time < tw.startTime then s
    else
      let elapsed := (time - tw.startTime) / tw.duration
      let elapsed := if tw.duration = 0 ∨ elapsed > 1 then 1 else elapsed
      let value := quarticInOut elapsed
      let s1 := { s with camera :=
        { s.camera with position := lerp3 tw.valuesStart tw.valuesEnd value } }
      if elapsed = 1 then onComplete h s1 else s1

/-- The call `controls.update()`: the orbit mathematics is the host's; it
rewrites the camera position from the state of the controls. -/
def controlsUpdate (h : Host) (s : State) : State :=
  { s with camera := { s.camera with position := h.orbit s.controls s.camera.position } }

/-- The call `renderer.render(scene, camera)`: one more frame. -/
def render (s : State) : State :=
  { s with renderer := { s.renderer with frames := s.renderer.frames + 1 } }

/-- Script lines 108-116, one invocation at clock value `time`. -/
def rendeLoop (h : Host) (time : ℚ) (s : State) : State :=
  render (controlsUpdate h (tweenUpdate h time s))

/-- Script lines 134-142. -/
def updateColorsAndIntensities (s : State) : State :=
  let s1 := { s with sunLight := { s.sunLight with intensity := s.lightParams.dirLightIntensity } }
  let s2 := { s1 with sunLight := { s1.sunLight with color := s1.lightParams.dirLightColor } }
  let s3 := { s2 with ambient := { s2.ambient with intensity := s2.lightParams.ambLightIntensity } }
  let s4 := { s3 with ambient := { s3.ambient with color := s3.lightParams.ambLightColor } }
  { s4 with scene := { s4.scene with background := s4.lightParams.bgColor } }

/-- The call `gui.updateDisplay()`: every controller shows the current value of
its property. -/
def guiUpdateDisplay (s : State) : State :=
  { s with display := s.lightParams }

/-- Script lines 186-207. -/
def updateGUIControls (s : State) : State :=
  let s1 :=
    if s.isDarkMode then
      { s with lightParams :=
          { dirLightIntensity := 1.96
            dirLightColor := 0x555555
            ambLightIntensity := 0.82
            ambLightColor := 0x333333
            bgColor := 0x000000 } }
    else
      { s with lightParams :=
          { dirLightIntensity := 1.96
            dirLightColor := 0xe8c37b
            ambLightIntensity := 0.82
            ambLightColor := 0xa0a0fc
            bgColor := 0xc8f0f9 } }
  updateColorsAndIntensities (guiUpdateDisplay s1)

/-- Script lines 163-180. -/
def toggleDarkMode (s : State) : State :=
  let s1 := { s with isDarkMode := !s.isDarkMode }
  let s2 :=
    if s1.isDarkMode then
      let a := { s1 with scene := { s1.scene with background := 0x000000 } }
      let b := { a with ambient := { a.ambient with color := 0x333333 } }
      { b with sunLight := { b.sunLight with color := 0x555555 } }
    else
      let a := { s1 with scene := { s1.scene with background := 0xc8f0f9 } }
      let b := { a with ambient := { a.ambient with color := 0xa0a0fc } }
      { b with sunLight := { b.sunLight with color := 0xe8c37b } }
  updateGUIControls s2

/-- The resize listener (script lines 45-53) for a window that now measures
`width` by `height`. -/
def onResize (width height : Nat) (s : State) : State :=
  let s1 := { s with camera := { s.camera with aspect := (width : ℚ) / (height : ℚ) } }
  let s2 := { s1 with camera := { s1.camera with projectionAspect := s1.camera.aspect } }
  let s3 := { s2 with renderer := { s2.renderer with width := width, height := height } }
  { s3 with renderer := { s3.renderer with pixelRatio := 2 } }

/-- The mousemove listener (script lines 214-219): logs the camera position. -/
def onMouseMove (s : State) : State :=
  { s with console := s.console ++ [s.camera.position] }

/-- The loader callback (script lines 70-72): `scene.add(gltf.scene)`. -/
def onModelLoaded (gltf : Nat) (s : State) : State :=
  { s with scene := { s.scene with children := s.scene.children ++ [Object3D.gltf gltf] } }

/-! ## The panel

`gui.add` and `gui.addColor` (script lines 144-150) create five dat.gui
controllers on `lightParams`. A user edit calls the controller method
`setValue`, which writes the property, calls the `onChange` listener when one
was registered, and refreshes what the controller shows. -/

/-- Modelled from the spec: the panel widget (dat.gui) is not under `src/`.
Sections 4.3 and 7 of the spec say that the widget clamps an edit into the
declared range before it is stored; the widget also rounds it to the declared
step (`Math.round(v / step) * step`, with `Math.round x = floor (x + 1/2)`).
This is the value a number controller with `min`, `max` and `step` stores for
an edit `v`. -/
def numberControllerValue (min max step v : ℚ) : ℚ :=
  let v1 := if v < min then min else if v > max then max else v
  (⌊v1 / step + 1 / 2⌋ : ℚ) * step

/-- Edit of the controller of script line 144: `min(0).max(10).step(0.0001)`,
no `onChange` listener. -/
def editDirLightIntensity (v : ℚ) (s : State) : State :=
  let v1 := numberControllerValue 0 10 0.0001 v
  let s1 := { s with lightParams := { s.lightParams with dirLightIntensity := v1 } }
  { s1 with display := { s1.display with dirLightIntensity := v1 } }

/-- Edit of the controller of script line 145:
`onChange(updateColorsAndIntensities)`. -/
def editDirLightColor (v : Nat) (s : State) : State :=
  let s1 := { s with lightParams := { s.lightParams with dirLightColor := v } }
  let s2 := updateColorsAndIntensities s1
  { s2 with display := { s2.display with dirLightColor := v } }

/-- Edit of the controller of script line 147: `min(0).max(10).step(0.001)`,
no `onChange` listener. -/
def editAmbLightIntensity (v : ℚ) (s : State) : State :=
  let v1 := numberControllerValue 0 10 0.001 v
  let s1 := { s with lightParams := { s.lightParams with ambLightIntensity := v1 } }
  { s1 with display := { s1.display with ambLightIntensity := v1 } }

/-- Edit of the controller of script line 148:
`onChange(updateColorsAndIntensities)`. -/
def editAmbLightColor (v : Nat) (s : State) : State :=
  let s1 := { s with lightParams := { s.lightParams with ambLightColor := v } }
  let s2 := updateColorsAndIntensities s1
  { s2 with display := { s2.display with ambLightColor := v } }

/-- Edit of the controller of script line 150:
`onChange(updateColorsAndIntensities)`. -/
def editBgColor (v : Nat) (s : State) : State :=
  let s1 := { s with lightParams := { s.lightParams with bgColor := v } }
  let s2 := updateColorsAndIntensities s1
  { s2 with display := { s2.display with bgColor := v } }

/-! ## Start-up and events -/

/-- The value of `new OrbitControls(camera, renderer.domElement)` (script line
57). The constructor belongs to the three.js examples, not to `src/`; these are
its defaults for the modelled fields (`maxDistance = Infinity`,
`maxPolarAngle = Math.PI`, target at the origin). -/
def newOrbitControls (h : Host) : OrbitControls :=
  { enabled := true
    target := ⟨0, 0, 0⟩
    enableDamping := false
    dampingFactor := 0.05
    minDistance := 0
    maxDistance := none
    enableRotate := true
    enableZoom := true
    maxPolarAngle := h.PI }

/-- The state when the top-level statements of the script have run, in source
order: scene, renderer, camera, controls and lights are created (lines 26-66),
`introAnimation()` is called (line 92), `rendeLoop()` runs once (line 118),
`lightParams` is read from the lights and the background (lines 125-131),
`isDarkMode` is `false` (line 160) and `updateGUIControls()` is called
(line 210). -/
def startup (h : Host) : State :=
  let scene : Scene :=
    { background := 0xc8f0f9
      children := [Object3D.camera, Object3D.ambient, Object3D.sunLight] }
  let renderer : Renderer :=
    { pixelRatio := min h.devicePixelRatio 2
      width := h.innerWidth
      height := h.innerHeight
      frames := 0 }
  let camera : Camera :=
    { fov := 35
      aspect := (h.innerWidth : ℚ) / (h.innerHeight : ℚ)
      near := 1
      far := 100
      position := ⟨34, 16, -20⟩
      projectionAspect := (h.innerWidth : ℚ) / (h.innerHeight : ℚ) }
  let ambient : AmbientLight := { color := 0xa0a0fc, intensity := 0.82 }
  let sunLight : DirectionalLight :=
    { color := 0xe8c37b, intensity := 1.96, position := ⟨-69, 44, 14⟩ }
  let lightParams : LightParams :=
    { dirLightIntensity := sunLight.intensity
      dirLightColor := sunLight.color
      ambLightIntensity := ambient.intensity
      ambLightColor := ambient.color
      bgColor := scene.background }
  let s0 : State :=
    { scene := scene
      renderer := renderer
      camera := camera
      controls := newOrbitControls h
      ambient := ambient
      sunLight := sunLight
      tween := none
      lightParams := lightParams
      display := lightParams
      isDarkMode := false
      console := [] }
  updateGUIControls (rendeLoop h h.now (introAnimation h s0))

/-- What can happen after start-up: an animation frame at clock value `now`, a
window resize to `width` by `height`, an edit of one of the five panel
controllers, a click on the dark mode button, a mouse move, the completion of
the model load. -/
inductive Event where
  | frame (now : ℚ)
  | resize (width height : Nat)
  | editDirLightIntensity (v : ℚ)
  | editDirLightColor (v : Nat)
  | editAmbLightIntensity (v : ℚ)
  | editAmbLightColor (v : Nat)
  | editBgColor (v : Nat)
  | click
  | mousemove
  | modelLoaded (gltf : Nat)
deriving DecidableEq, Repr

/-- The handler the script registered for each event. -/
def step (h : Host) (s : State) : Event → State
  | Event.frame now => rendeLoop h now s
  | Event.resize width height => onResize width height s
  | Event.editDirLightIntensity v => editDirLightIntensity v s
  | Event.editDirLightColor v => editDirLightColor v s
  | Event.editAmbLightIntensity v => editAmbLightIntensity v s
  | Event.editAmbLightColor v => editAmbLightColor v s
  | Event.editBgColor v => editBgColor v s
  | Event.click => toggleDarkMode s
  | Event.mousemove => onMouseMove s
  | Event.modelLoaded gltf => onModelLoaded gltf s

/-- The state after start-up followed by the events `evs`, oldest first. -/
def run (h : Host) (evs : List Event) : State :=
  evs.foldl (step h) (startup h)

/-- The frame at clock value `now` is one on which the intro tween, started at
`h.now` with delay 1000 and duration 6500, has run its full course. -/
def completes (h : Host) : Event → Bool
  | Event.frame now => decide (h.now + 1000 + 6500 ≤ now)
  | _ => false

/-- The intro tween has completed during `evs`. -/
def introCompleted (h : Host) (evs : List Event) : Bool :=
  evs.any (completes h)

/-- The values `setOrbitControlsLimits` writes are the ones the controls hold. -/
def limitsInstalled (h : Host) (c : OrbitControls) : Bool :=
  c.enableDamping = true ∧ c.dampingFactor = 0.04 ∧ c.minDistance = 35 ∧
    c.maxDistance = some 60 ∧ c.enableRotate = true ∧ c.enableZoom = true ∧
    c.maxPolarAngle = h.PI / 2.5

/-- Squared distance between two points. -/
def distanceSq (p q : Vector3) : ℚ :=
  (p.x - q.x) * (p.x - q.x) + (p.y - q.y) * (p.y - q.y) + (p.z - q.z) * (p.z - q.z)

/-- The point `p` lies between the minimum and the maximum orbit distance of
the controls `c`, measured from the orbit target. -/
def withinDistanceLimits (c : OrbitControls) (p : Vector3) : Bool :=
  decide (c.minDistance * c.minDistance ≤ distanceSq p c.target) &&
    match c.maxDistance with
    | none => true
    | some d => decide (distanceSq p c.target ≤ d * d)

/-- A host for examples: clock 0, a 1280 by 720 window on a display with pixel
ratio 1, an orbit update that leaves the position alone. -/
def exampleHost : Host :=
  { now := 0
    innerWidth := 1280
    innerHeight := 720
    devicePixelRatio := 1
    PI := 355 / 113
    orbit := fun _ p => p }

/-- The five scene fields the panel is bound to, in the order of
`lightParams`. -/
def sceneParams (s : State) : LightParams :=
  { dirLightIntensity := s.sunLight.intensity
    dirLightColor := s.sunLight.color
    ambLightIntensity := s.ambient.intensity
    ambLightColor := s.ambient.color
    bgColor := s.scene.background }

/-- The Dark preset as the specification lists it. -/
def darkPreset : LightParams :=
  { dirLightIntensity := 1.96
    dirLightColor := 0x555555
    ambLightIntensity := 0.82
    ambLightColor := 0x333333
    bgColor := 0x000000 }

/-- The Light preset as the specification lists it. -/
def lightPreset : LightParams :=
  { dirLightIntensity := 1.96
    dirLightColor := 0xe8c37b
    ambLightIntensity := 0.82
    ambLightColor := 0xa0a0fc
    bgColor := 0xc8f0f9 }

/-- The preset the specification selects for a value of the dark mode flag. -/
def presetOf (dark : Bool) : LightParams :=
  if dark then darkPreset else lightPreset

/-- The start-up state of the example host with `lightParams.dirLightIntensity`
overwritten by 11, a value outside the declared range 0 to 10. -/
def outOfRangeState : State :=
  { startup exampleHost with
    lightParams := { (startup exampleHost).lightParams with dirLightIntensity := 11 } }

/-! ## Basic facts -/

/-- Before its start time the tween does nothing. -/
theorem tweenUpdate_before (h : Host) (time : ℚ) (s : State) (tw : Tween)
    (htw : s.tween = some tw) (hlt : time < tw.startTime) :
    tweenUpdate h time s = s := by
  unfold tweenUpdate
  rw [htw]
  simp [hlt]

/-- The start-up state, field by field. -/
theorem startup_eq (h : Host) :
    startup h =
      { scene :=
          { background := 0xc8f0f9
            children := [Object3D.camera, Object3D.ambient, Object3D.sunLight] }
        renderer :=
          { pixelRatio := min h.devicePixelRatio 2
            width := h.innerWidth
            height := h.innerHeight
            frames := 1 }
        camera :=
          { fov := 35
            aspect := (h.innerWidth : ℚ) / (h.innerHeight : ℚ)
            near := 1
            far := 100
            position := h.orbit { newOrbitControls h with enabled := false } introStart
            projectionAspect := (h.innerWidth : ℚ) / (h.innerHeight : ℚ) }
        controls := { newOrbitControls h with enabled := false }
        ambient := { color := 0xa0a0fc, intensity := 0.82 }
        sunLight := { color := 0xe8c37b, intensity := 1.96, position := ⟨-69, 44, 14⟩ }
        tween := some
          ({ valuesStart := introStart
             valuesEnd := introEnd
             duration := 6500
             delayTime := 1000
             startTime := h.now + 1000 })
        lightParams := lightPreset
        display := lightPreset
        isDarkMode := false
        console := [] } := by
  unfold startup
  simp only [rendeLoop]
  rw [tweenUpdate_before h h.now _ _ rfl (by simp [introAnimation])]
  rfl

/-! ## Dark mode and parameter synchronisation -/

/-- C1: starting from the state the script reaches after start-up, calling
`toggleDarkMode` twice gives back the start-up state: `isDarkMode`, the five
`lightParams` values and the five bound scene fields (sun intensity and colour,
ambient intensity and colour, background) all have their original values, and
so has every other field of the state. -/
theorem toggleDarkMode_twice_startup (h : Host) :
    (toggleDarkMode (toggleDarkMode (startup h))).isDarkMode = (startup h).isDarkMode ∧
    (toggleDarkMode (toggleDarkMode (startup h))).lightParams.dirLightIntensity
      = (startup h).lightParams.dirLightIntensity ∧
    (toggleDarkMode (toggleDarkMode (startup h))).lightParams.dirLightColor
      = (startup h).lightParams.dirLightColor ∧
    (toggleDarkMode (toggleDarkMode (startup h))).lightParams.ambLightIntensity
      = (startup h).lightParams.ambLightIntensity ∧
    (toggleDarkMode (toggleDarkMode (startup h))).lightParams.ambLightColor
      = (startup h).lightParams.ambLightColor ∧
    (toggleDarkMode (toggleDarkMode (startup h))).lightParams.bgColor
      = (startup h).lightParams.bgColor ∧
    (toggleDarkMode (toggleDarkMode (startup h))).sunLight.intensity
      = (startup h).sunLight.intensity ∧
    (toggleDarkMode (toggleDarkMode (startup h))).sunLight.color
      = (startup h).sunLight.color ∧
    (toggleDarkMode (toggleDarkMode (startup h))).ambient.intensity
      = (startup h).ambient.intensity ∧
    (toggleDarkMode (toggleDarkMode (startup h))).ambient.color
      = (startup h).ambient.color ∧
    (toggleDarkMode (toggleDarkMode (startup h))).scene.background
      = (startup h).scene.background ∧
    toggleDarkMode (toggleDarkMode (startup h)) = startup h := by
  have key : toggleDarkMode (toggleDarkMode (startup h)) = startup h := by
    rw [startup_eq]
    rfl
  rw [key]
  exact ⟨rfl, rfl, rfl, rfl, rfl, rfl, rfl, rfl, rfl, rfl, rfl, rfl⟩

/-- C2: from every prior state, one call of `toggleDarkMode` flips
`isDarkMode` and leaves the five `lightParams` values, the five bound scene
fields and the panel display equal to the literal preset selected by the new
flag (Dark = 1.96, 0x555555, 0.82, 0x333333, 0x000000; Light = 1.96, 0xe8c37b,
0.82, 0xa0a0fc, 0xc8f0f9). In particular one toggle from the start-up Light
state gives background 0x000000, ambient colour 0x333333 and sun colour
0x555555 with panel values equal to the scene values, and the two intensities
are the same in both presets. -/
theorem toggleDarkMode_installs_preset (s : State) :
    (toggleDarkMode s).isDarkMode = (!s.isDarkMode) ∧
    (toggleDarkMode s).lightParams = presetOf (!s.isDarkMode) ∧
    sceneParams (toggleDarkMode s) = presetOf (!s.isDarkMode) ∧
    (toggleDarkMode s).display = presetOf (!s.isDarkMode) ∧
    presetOf true = ⟨1.96, 0x555555, 0.82, 0x333333, 0x000000⟩ ∧
    presetOf false = ⟨1.96, 0xe8c37b, 0.82, 0xa0a0fc, 0xc8f0f9⟩ ∧
    (∀ h : Host,
      (toggleDarkMode (startup h)).isDarkMode = true ∧
      (toggleDarkMode (startup h)).scene.background = 0x000000 ∧
      (toggleDarkMode (startup h)).ambient.color = 0x333333 ∧
      (toggleDarkMode (startup h)).sunLight.color = 0x555555 ∧
      (toggleDarkMode (startup h)).lightParams = sceneParams (toggleDarkMode (startup h)) ∧
      (toggleDarkMode (startup h)).display = sceneParams (toggleDarkMode (startup h))) ∧
    (presetOf true).dirLightIntensity = (presetOf false).dirLightIntensity ∧
    (presetOf true).ambLightIntensity = (presetOf false).ambLightIntensity := by
  refine ⟨?_, ?_, ?_, ?_, rfl, rfl, ?_, rfl, rfl⟩
  · cases hd : s.isDarkMode <;> simp [toggleDarkMode, updateGUIControls, guiUpdateDisplay,
      updateColorsAndIntensities, hd]
  · cases hd : s.isDarkMode <;> simp [toggleDarkMode, updateGUIControls, guiUpdateDisplay,
      updateColorsAndIntensities, hd, presetOf, darkPreset, lightPreset]
  · cases hd : s.isDarkMode <;> simp [toggleDarkMode, updateGUIControls, guiUpdateDisplay,
      updateColorsAndIntensities, hd, presetOf, darkPreset, lightPreset, sceneParams]
  · cases hd : s.isDarkMode <;> simp [toggleDarkMode, updateGUIControls, guiUpdateDisplay,
      updateColorsAndIntensities, hd, presetOf, darkPreset, lightPreset]
  · intro h
    rw [startup_eq]
    exact ⟨rfl, rfl, rfl, rfl, rfl, rfl⟩

/-- C3: for every assignment `V` of the five `lightParams` values,
`updateColorsAndIntensities` leaves sun intensity, sun colour, ambient
intensity, ambient colour and background equal to the parameter of the same
name in `V`, and leaves `lightParams`, `isDarkMode`, the camera, the controls
and the tween registry (as well as the light position, the scene children, the
renderer, the panel display and the console) unchanged. -/
theorem updateColorsAndIntensities_copies (s : State) (V : LightParams) :
    (updateColorsAndIntensities { s with lightParams := V }).sunLight.intensity
      = V.dirLightIntensity ∧
    (updateColorsAndIntensities { s with lightParams := V }).sunLight.color
      = V.dirLightColor ∧
    (updateColorsAndIntensities { s with lightParams := V }).ambient.intensity
      = V.ambLightIntensity ∧
    (updateColorsAndIntensities { s with lightParams := V }).ambient.color
      = V.ambLightColor ∧
    (updateColorsAndIntensities { s with lightParams := V }).scene.background
      = V.bgColor ∧
    (updateColorsAndIntensities { s with lightParams := V }).lightParams = V ∧
    (updateColorsAndIntensities { s with lightParams := V }).isDarkMode = s.isDarkMode ∧
    (updateColorsAndIntensities { s with lightParams := V }).camera = s.camera ∧
    (updateColorsAndIntensities { s with lightParams := V }).controls = s.controls ∧
    (updateColorsAndIntensities { s with lightParams := V }).tween = s.tween ∧
    (updateColorsAndIntensities { s with lightParams := V }).sunLight.position
      = s.sunLight.position ∧
    (updateColorsAndIntensities { s with lightParams := V }).scene.children
      = s.scene.children ∧
    (updateColorsAndIntensities { s with lightParams := V }).renderer = s.renderer ∧
    (updateColorsAndIntensities { s with lightParams := V }).display = s.display ∧
    (updateColorsAndIntensities { s with lightParams := V }).console = s.console :=
  ⟨rfl, rfl, rfl, rfl, rfl, rfl, rfl, rfl, rfl, rfl, rfl, rfl, rfl, rfl, rfl⟩

/-- An edit to 5 of a number controller with range 0 to 10 stores 5, for both
steps the script uses. -/
theorem numberControllerValue_five :
    numberControllerValue 0 10 0.0001 5 = 5 ∧ numberControllerValue 0 10 0.001 5 = 5 := by
  have h1 : ⌊(5 : ℚ) / 0.0001 + 1 / 2⌋ = 50000 := by
    rw [Int.floor_eq_iff]
    constructor <;> norm_num
  have h2 : ⌊(5 : ℚ) / 0.001 + 1 / 2⌋ = 5000 := by
    rw [Int.floor_eq_iff]
    constructor <;> norm_num
  constructor
  · simp only [numberControllerValue]
    rw [if_neg (by norm_num), if_neg (by norm_num), h1]
    norm_num
  · simp only [numberControllerValue]
    rw [if_neg (by norm_num), if_neg (by norm_num), h2]
    norm_num

/-- C4 (the code departs from the claim): after start-up, an edit of the
`dirLightIntensity` controller to the in-range value 5 stores 5 in
`lightParams` but leaves `sunLight.intensity` at 1.96, and an edit of the
`ambLightIntensity` controller to 5 leaves `ambient.intensity` at 0.82: the two
number controllers have no `onChange` listener. The three colour controllers do
call `updateColorsAndIntensities`: after an edit to `v` the bound scene field
is `v` and the five scene fields equal the five `lightParams` values. -/
theorem intensity_edit_not_applied (h : Host) :
    (step h (startup h) (Event.editDirLightIntensity 5)).lightParams.dirLightIntensity = 5 ∧
    (step h (startup h) (Event.editDirLightIntensity 5)).sunLight.intensity = 1.96 ∧
    (step h (startup h) (Event.editAmbLightIntensity 5)).lightParams.ambLightIntensity = 5 ∧
    (step h (startup h) (Event.editAmbLightIntensity 5)).ambient.intensity = 0.82 ∧
    (∀ (s : State) (v : Nat),
      (step h s (Event.editDirLightColor v)).sunLight.color = v ∧
      sceneParams (step h s (Event.editDirLightColor v))
        = (step h s (Event.editDirLightColor v)).lightParams ∧
      (step h s (Event.editAmbLightColor v)).ambient.color = v ∧
      sceneParams (step h s (Event.editAmbLightColor v))
        = (step h s (Event.editAmbLightColor v)).lightParams ∧
      (step h s (Event.editBgColor v)).scene.background = v ∧
      sceneParams (step h s (Event.editBgColor v))
        = (step h s (Event.editBgColor v)).lightParams) := by
  refine ⟨?_, ?_, ?_, ?_, ?_⟩
  · simp only [step, editDirLightIntensity]
    exact numberControllerValue_five.1
  · rw [startup_eq]
    rfl
  · simp only [step, editAmbLightIntensity]
    exact numberControllerValue_five.2
  · rw [startup_eq]
    rfl
  · intro s v
    exact ⟨rfl, rfl, rfl, rfl, rfl, rfl⟩

/-! ## The resize listener -/

/-- C7 (the code departs from the claim): on a display with device pixel ratio
1 the renderer starts with pixel ratio `min 1 2 = 1`, and after the resize
listener has run the pixel ratio is 2, whatever the state and the window size:
the listener writes the constant 2, not the clamped device pixel ratio. -/
theorem onResize_pixelRatio_constant :
    exampleHost.devicePixelRatio = 1 ∧
    (startup exampleHost).renderer.pixelRatio = min exampleHost.devicePixelRatio 2 ∧
    (startup exampleHost).renderer.pixelRatio = 1 ∧
    (onResize 800 600 (startup exampleHost)).renderer.pixelRatio = 2 ∧
    (onResize 800 600 (startup exampleHost)).renderer.pixelRatio
      ≠ min exampleHost.devicePixelRatio 2 ∧
    (∀ (s : State) (width height : Nat), (onResize width height s).renderer.pixelRatio = 2) := by
  have hmin : min exampleHost.devicePixelRatio 2 = 1 := by
    simp [exampleHost]
  refine ⟨rfl, ?_, ?_, rfl, ?_, fun _ _ _ => rfl⟩
  · rw [startup_eq]
  · rw [startup_eq]
    exact hmin
  · rw [hmin]
    show (2 : ℚ) ≠ 1
    norm_num

/-- C8: for every window size `width` by `height` with `height > 0`, the
resize listener sets `camera.aspect` to `width / height` (a genuine quotient:
times `height` it is `width`), rebuilds the projection with it, and sets the
renderer surface to `width` by `height`; for 800 by 600 the aspect is 800/600
and the surface 800 by 600. The lights, the scene (background included),
`lightParams`, the panel display and `isDarkMode` are unchanged. -/
theorem onResize_aspect_and_size (s : State) (width height : Nat) (hpos : 0 < height) :
    (onResize width height s).camera.aspect = (width : ℚ) / (height : ℚ) ∧
    (onResize width height s).camera.aspect * (height : ℚ) = (width : ℚ) ∧
    (onResize width height s).camera.projectionAspect = (width : ℚ) / (height : ℚ) ∧
    (onResize width height s).renderer.width = width ∧
    (onResize width height s).renderer.height = height ∧
    (onResize 800 600 s).camera.aspect = 800 / 600 ∧
    (onResize 800 600 s).renderer.width = 800 ∧
    (onResize 800 600 s).renderer.height = 600 ∧
    (onResize width height s).sunLight = s.sunLight ∧
    (onResize width height s).ambient = s.ambient ∧
    (onResize width height s).scene = s.scene ∧
    (onResize width height s).lightParams = s.lightParams ∧
    (onResize width height s).display = s.display ∧
    (onResize width height s).isDarkMode = s.isDarkMode := by
  have hne : (height : ℚ) ≠ 0 := by
    exact_mod_cast (Nat.pos_iff_ne_zero.mp hpos)
  refine ⟨rfl, ?_, rfl, rfl, rfl, ?_, rfl, rfl, rfl, rfl, rfl, rfl, rfl, rfl⟩
  · show (width : ℚ) / (height : ℚ) * (height : ℚ) = (width : ℚ)
    exact div_mul_cancel₀ _ hne
  · show ((800 : Nat) : ℚ) / ((600 : Nat) : ℚ) = 800 / 600
    norm_num

/-- Witness for C8: the 800 by 600 window on the start-up state of the example
host. -/
theorem onResize_aspect_and_size_witness :
    0 < 600 ∧
    (onResize 800 600 (startup exampleHost)).camera.aspect = ((800 : Nat) : ℚ) / ((600 : Nat) : ℚ) ∧
    (onResize 800 600 (startup exampleHost)).renderer.width = 800 ∧
    (onResize 800 600 (startup exampleHost)).renderer.height = 600 :=
  ⟨by decide,
    (onResize_aspect_and_size (startup exampleHost) 800 600 (by decide)).1,
    (onResize_aspect_and_size (startup exampleHost) 800 600 (by decide)).2.2.2.1,
    (onResize_aspect_and_size (startup exampleHost) 800 600 (by decide)).2.2.2.2.1⟩

/-! ## Out-of-range parameter values -/

/-- C9, counterexample: with `lightParams.dirLightIntensity = 11` (outside 0 to
10) and `sunLight.intensity = 1.96` before, `updateColorsAndIntensities` leaves
`sunLight.intensity = 11`; the prior value is not kept. -/
theorem updateColorsAndIntensities_out_of_range_counterexample :
    (10 : ℚ) < outOfRangeState.lightParams.dirLightIntensity ∧
    outOfRangeState.sunLight.intensity = 1.96 ∧
    (updateColorsAndIntensities outOfRangeState).sunLight.intensity = 11 ∧
    (updateColorsAndIntensities outOfRangeState).sunLight.intensity
      ≠ outOfRangeState.sunLight.intensity := by
  have h1 : outOfRangeState.sunLight.intensity = 1.96 := by
    unfold outOfRangeState
    rw [startup_eq]
  have h2 : (updateColorsAndIntensities outOfRangeState).sunLight.intensity = 11 := rfl
  refine ⟨?_, h1, h2, ?_⟩
  · show (10 : ℚ) < 11
    norm_num
  · rw [h1, h2]
    norm_num

/-- C9, amended: `updateColorsAndIntensities` has no range check. When
`lightParams.dirLightIntensity` or `lightParams.ambLightIntensity` lies outside
0 to 10, the function still copies both values into `sunLight.intensity` and
`ambient.intensity`, so that afterwards a scene intensity lies outside 0 to
10. -/
theorem updateColorsAndIntensities_no_range_check (s : State)
    (hout : s.lightParams.dirLightIntensity < 0 ∨ 10 < s.lightParams.dirLightIntensity ∨
      s.lightParams.ambLightIntensity < 0 ∨ 10 < s.lightParams.ambLightIntensity) :
    (updateColorsAndIntensities s).sunLight.intensity = s.lightParams.dirLightIntensity ∧
    (updateColorsAndIntensities s).ambient.intensity = s.lightParams.ambLightIntensity ∧
    ((updateColorsAndIntensities s).sunLight.intensity < 0 ∨
      10 < (updateColorsAndIntensities s).sunLight.intensity ∨
      (updateColorsAndIntensities s).ambient.intensity < 0 ∨
      10 < (updateColorsAndIntensities s).ambient.intensity) :=
  ⟨rfl, rfl, hout⟩

/-- Witness for the amended C9 at `outOfRangeState`. -/
theorem updateColorsAndIntensities_no_range_check_witness :
    (10 : ℚ) < outOfRangeState.lightParams.dirLightIntensity ∧
    (updateColorsAndIntensities outOfRangeState).sunLight.intensity
      = outOfRangeState.lightParams.dirLightIntensity :=
  have hout : (10 : ℚ) < outOfRangeState.lightParams.dirLightIntensity := by
    show (10 : ℚ) < 11
    norm_num
  ⟨hout, (updateColorsAndIntensities_no_range_check outOfRangeState (Or.inr (Or.inl hout))).1⟩

/-! ## The intro animation -/

/-- The easing ends at 1. -/
theorem quarticInOut_one : quarticInOut 1 = 1 := by
  norm_num [quarticInOut]

/-- Interpolation with value 1 gives the end pose. -/
theorem lerp3_one (a b : Vector3) : lerp3 a b 1 = b := by
  cases b
  simp [lerp3, lerp]

/-- Once start time plus duration has passed, the tween writes its end values
and runs the completion callback. -/
theorem tweenUpdate_complete (h : Host) (time : ℚ) (s : State) (tw : Tween)
    (htw : s.tween = some tw) (hdur : 0 < tw.duration)
    (hge : tw.startTime + tw.duration ≤ time) :
    tweenUpdate h time s
      = onComplete h { s with camera := { s.camera with position := tw.valuesEnd } } := by
  have hnlt : ¬ time < tw.startTime := by
    intro hlt
    linarith
  have hel : 1 ≤ (time - tw.startTime) / tw.duration := by
    rw [le_div_iff₀ hdur]
    linarith
  have hclamp : (if tw.duration = 0 ∨ (time - tw.startTime) / tw.duration > 1 then (1 : ℚ)
      else (time - tw.startTime) / tw.duration) = 1 := by
    split
    · rfl
    · rename_i hno
      push_neg at hno
      exact le_antisymm hno.2 hel
  unfold tweenUpdate
  rw [htw]
  simp only [hnlt, if_false, hclamp, quarticInOut_one, lerp3_one, if_true]

/-- While start time plus duration has not passed, a tween update changes
neither the registry nor the controls. -/
theorem tweenUpdate_running (h : Host) (time : ℚ) (s : State) (tw : Tween)
    (htw : s.tween = some tw) (hdur : 0 < tw.duration)
    (hlt : time < tw.startTime + tw.duration) :
    (tweenUpdate h time s).tween = s.tween ∧ (tweenUpdate h time s).controls = s.controls := by
  have hel : (time - tw.startTime) / tw.duration < 1 := by
    rw [div_lt_iff₀ hdur]
    linarith
  have hclamp : (if tw.duration = 0 ∨ (time - tw.startTime) / tw.duration > 1 then (1 : ℚ)
      else (time - tw.startTime) / tw.duration) = (time - tw.startTime) / tw.duration := by
    rw [if_neg]
    push_neg
    exact ⟨ne_of_gt hdur, le_of_lt hel⟩
  unfold tweenUpdate
  rw [htw]
  by_cases hs : time < tw.startTime
  · simp [hs, htw]
  · simp [hs, hclamp, ne_of_lt hel, htw]

/-- With no tween registered, a tween update does nothing. -/
theorem tweenUpdate_none (h : Host) (time : ℚ) (s : State) (htw : s.tween = none) :
    tweenUpdate h time s = s := by
  unfold tweenUpdate
  rw [htw]

/-- C5: when the intro tween completes, that is at a tween update whose clock
value is at least start-up time plus the 1000 ms delay plus the 6500 ms
duration, with the tween created at start-up (from (26, 4, -35) to
(16, 50, -0.1), Quartic.InOut easing) still registered, the camera position is
the end pose (16, 50, -0.1), and the completion callback has set
`controls.enabled = true`, `enableDamping = true`, `dampingFactor = 0.04`,
`minDistance = 35`, `maxDistance = 60`, `maxPolarAngle = PI / 2.5`,
`enableRotate = true`, `enableZoom = true` and removed the tween; the controls
and the registry are the same at the end of the whole frame. -/
theorem intro_completion (h : Host) (s : State) (time : ℚ)
    (htw : s.tween = (startup h).tween) (hge : h.now + 1000 + 6500 ≤ time) :
    (startup h).tween = some ⟨⟨26, 4, -35⟩, ⟨16, 50, -0.1⟩, 6500, 1000, h.now + 1000⟩ ∧
    quarticInOut 1 = 1 ∧
    (tweenUpdate h time s).camera.position = ⟨16, 50, -0.1⟩ ∧
    (tweenUpdate h time s).controls.enabled = true ∧
    (tweenUpdate h time s).controls.enableDamping = true ∧
    (tweenUpdate h time s).controls.dampingFactor = 0.04 ∧
    (tweenUpdate h time s).controls.minDistance = 35 ∧
    (tweenUpdate h time s).controls.maxDistance = some 60 ∧
    (tweenUpdate h time s).controls.maxPolarAngle = h.PI / 2.5 ∧
    (tweenUpdate h time s).controls.enableRotate = true ∧
    (tweenUpdate h time s).controls.enableZoom = true ∧
    (tweenUpdate h time s).tween = none ∧
    (rendeLoop h time s).controls = (tweenUpdate h time s).controls ∧
    (rendeLoop h time s).tween = none := by
  have h0 : (startup h).tween
      = some ⟨⟨26, 4, -35⟩, ⟨16, 50, -0.1⟩, 6500, 1000, h.now + 1000⟩ := by
    rw [startup_eq]
    rfl
  have hs : s.tween = some ⟨⟨26, 4, -35⟩, ⟨16, 50, -0.1⟩, 6500, 1000, h.now + 1000⟩ := by
    rw [htw, h0]
  have hc := tweenUpdate_complete h time s _ hs (by norm_num) (by linarith)
  have hr : (rendeLoop h time s).tween = (tweenUpdate h time s).tween := rfl
  have hrc : (rendeLoop h time s).controls = (tweenUpdate h time s).controls := rfl
  rw [hr, hc]
  exact ⟨h0, quarticInOut_one, rfl, rfl, rfl, rfl, rfl, rfl, rfl, rfl, rfl, rfl,
    hrc.trans (congrArg State.controls hc), rfl⟩

/-- Witness for C5: the example host, the start-up state, clock value 7500. -/
theorem intro_completion_witness :
    (tweenUpdate exampleHost 7500 (startup exampleHost)).camera.position = ⟨16, 50, -0.1⟩ ∧
    (tweenUpdate exampleHost 7500 (startup exampleHost)).controls.enabled = true ∧
    (tweenUpdate exampleHost 7500 (startup exampleHost)).controls.minDistance = 35 ∧
    (tweenUpdate exampleHost 7500 (startup exampleHost)).controls.maxDistance = some 60 :=
  have hge : exampleHost.now + 1000 + 6500 ≤ (7500 : ℚ) := by
    norm_num [exampleHost]
  have w := intro_completion exampleHost (startup exampleHost) 7500 rfl hge
  ⟨w.2.2.1, w.2.2.2.1, w.2.2.2.2.2.2.1, w.2.2.2.2.2.2.2.1⟩

/-- C10: measured from the orbit target, which is the origin, the end pose
(16, 50, -0.1) of the intro animation has squared distance 2756.01 and the
start pose (26, 4, -35) has squared distance 1917; both lie between the square
1225 of the installed `minDistance` 35 and the square 3600 of the installed
`maxDistance` 60. Installing the limits, and the completion callback as a
whole, leave the camera as it is. -/
theorem intro_poses_within_distance_limits (h : Host) (s : State) :
    (onComplete h (startup h)).controls.target = ⟨0, 0, 0⟩ ∧
    distanceSq introEnd (onComplete h (startup h)).controls.target = 2756.01 ∧
    distanceSq introStart (onComplete h (startup h)).controls.target = 1917 ∧
    (onComplete h (startup h)).controls.minDistance = 35 ∧
    (onComplete h (startup h)).controls.maxDistance = some 60 ∧
    ((35 : ℚ) * 35 = 1225 ∧ (60 : ℚ) * 60 = 3600) ∧
    ((1225 : ℚ) ≤ 2756.01 ∧ (2756.01 : ℚ) ≤ 3600) ∧
    ((1225 : ℚ) ≤ 1917 ∧ (1917 : ℚ) ≤ 3600) ∧
    withinDistanceLimits (onComplete h (startup h)).controls introEnd = true ∧
    withinDistanceLimits (onComplete h (startup h)).controls introStart = true ∧
    (setOrbitControlsLimits h s).camera = s.camera ∧
    (onComplete h s).camera = s.camera := by
  have ht : (onComplete h (startup h)).controls.target = ⟨0, 0, 0⟩ := by
    rw [startup_eq]
    rfl
  have hmin : (onComplete h (startup h)).controls.minDistance = 35 := rfl
  have hmax : (onComplete h (startup h)).controls.maxDistance = some 60 := rfl
  have hE : distanceSq introEnd (onComplete h (startup h)).controls.target = 2756.01 := by
    rw [ht]
    norm_num [distanceSq, introEnd]
  have hS : distanceSq introStart (onComplete h (startup h)).controls.target = 1917 := by
    rw [ht]
    norm_num [distanceSq, introStart]
  refine ⟨ht, hE, hS, hmin, hmax, ?_, ?_, ?_, ?_, ?_, rfl, rfl⟩
  · constructor <;> norm_num
  · constructor <;> norm_num
  · constructor <;> norm_num
  · simp only [withinDistanceLimits, hmin, hmax, hE]
    norm_num
  · simp only [withinDistanceLimits, hmin, hmax, hS]
    norm_num

/-! ## The lifecycle -/

/-- Events other than a frame leave the tween registry and the controls
alone; a frame changes them as its tween update does. -/
theorem step_tween_controls (h : Host) (s : State) (e : Event) :
    (step h s e).tween
        = (match e with
          | Event.frame now => (tweenUpdate h now s).tween
          | _ => s.tween) ∧
    (step h s e).controls
        = (match e with
          | Event.frame now => (tweenUpdate h now s).controls
          | _ => s.controls) := by
  cases e with
  | click =>
    cases hd : s.isDarkMode <;>
      simp [step, toggleDarkMode, updateGUIControls, guiUpdateDisplay,
        updateColorsAndIntensities, hd]
  | _ => exact ⟨rfl, rfl⟩

/-- The state after one more event. -/
theorem run_append_singleton (h : Host) (evs : List Event) (e : Event) :
    run h (evs ++ [e]) = step h (run h evs) e := by
  simp [run, List.foldl_append]

/-- The lifecycle invariant: until a completing frame has occurred the tween
of start-up is registered and the controls are as start-up left them; from
then on the registry is empty and the controls are as the completion callback
left them. -/
theorem run_lifecycle (h : Host) (evs : List Event) :
    (introCompleted h evs = false ∧ (run h evs).tween = (startup h).tween ∧
        (run h evs).controls = (startup h).controls) ∨
    (introCompleted h evs = true ∧ (run h evs).tween = none ∧
        (run h evs).controls = (onComplete h (startup h)).controls) := by
  induction evs using List.reverseRecOn with
  | nil => exact Or.inl ⟨rfl, rfl, rfl⟩
  | append_singleton evs e ih =>
    have h0 : (startup h).tween
        = some ⟨introStart, introEnd, 6500, 1000, h.now + 1000⟩ := by
      rw [startup_eq]
    have hcomp : introCompleted h (evs ++ [e]) = (introCompleted h evs || completes h e) := by
      simp [introCompleted, List.any_append]
    obtain ⟨hst, hsc⟩ := step_tween_controls h (run h evs) e
    rw [run_append_singleton, hcomp, hst, hsc]
    rcases ih with ⟨hno, htw, hctl⟩ | ⟨hyes, htw, hctl⟩
    · rw [hno]
      cases e with
      | frame now =>
        by_cases hge : h.now + 1000 + 6500 ≤ now
        · right
          have hc := tweenUpdate_complete h now (run h evs) _ (htw.trans h0)
            (by norm_num) (by show h.now + 1000 + 6500 ≤ now; exact hge)
          refine ⟨by simp [completes, hge], ?_, ?_⟩
          · show (tweenUpdate h now (run h evs)).tween = none
            rw [hc]
            rfl
          · show (tweenUpdate h now (run h evs)).controls = _
            rw [hc]
            show (onComplete h (run h evs)).controls = _
            simp only [onComplete, setOrbitControlsLimits, hctl]
        · left
          have hr := tweenUpdate_running h now (run h evs) _ (htw.trans h0)
            (by norm_num) (by show now < h.now + 1000 + 6500; exact lt_of_not_le hge)
          refine ⟨by simp [completes, hge], ?_, ?_⟩
          · show (tweenUpdate h now (run h evs)).tween = _
            rw [hr.1, htw]
          · show (tweenUpdate h now (run h evs)).controls = _
            rw [hr.2, hctl]
      | _ => exact Or.inl ⟨rfl, htw, hctl⟩
    · rw [hyes]
      right
      cases e with
      | frame now =>
        refine ⟨rfl, ?_, ?_⟩
        · show (tweenUpdate h now (run h evs)).tween = none
          rw [tweenUpdate_none h now _ htw, htw]
        · show (tweenUpdate h now (run h evs)).controls = _
          rw [tweenUpdate_none h now _ htw, hctl]
      | _ => exact ⟨rfl, htw, hctl⟩

/-- Completion is permanent: more events do not undo it. -/
theorem introCompleted_append (h : Host) (evs more : List Event)
    (hc : introCompleted h evs = true) : introCompleted h (evs ++ more) = true := by
  simp only [introCompleted, List.any_append, Bool.or_eq_true] at hc ⊢
  exact Or.inl hc

/-- C6: in every state the script reaches from start-up by frames, panel
edits, dark mode toggles, resizes, mouse moves and model-load completion, the
controls are enabled if and only if the intro tween has completed (a frame with
clock value at least start-up time + 1000 + 6500 has occurred), the limits of
`setOrbitControlsLimits` are installed if and only if it has completed, and the
tween registry is empty if and only if it has completed; before completion
(the delay included) the tween of start-up stays registered. Once the controls
are enabled, after any further events they are still enabled with the limits
installed and no tween is registered. -/
theorem controls_enabled_iff_intro_completed (h : Host) (evs : List Event) :
    ((run h evs).controls.enabled = true ↔ introCompleted h evs = true) ∧
    (limitsInstalled h (run h evs).controls = true ↔ introCompleted h evs = true) ∧
    ((run h evs).tween = none ↔ introCompleted h evs = true) ∧
    (introCompleted h evs = false → (run h evs).tween = (startup h).tween) ∧
    (∀ more : List Event, (run h evs).controls.enabled = true →
      (run h (evs ++ more)).controls.enabled = true ∧
      limitsInstalled h (run h (evs ++ more)).controls = true ∧
      (run h (evs ++ more)).tween = none) := by
  have hen0 : (startup h).controls.enabled = false := by
    rw [startup_eq]
  have hen1 : (onComplete h (startup h)).controls.enabled = true := rfl
  have hlim0 : limitsInstalled h (startup h).controls = false := by
    rw [startup_eq]
    simp [limitsInstalled, newOrbitControls]
  have hlim1 : limitsInstalled h (onComplete h (startup h)).controls = true := by
    simp [limitsInstalled, onComplete, setOrbitControlsLimits]
  have htw0 : (startup h).tween ≠ none := by
    rw [startup_eq]
    simp
  have key : ∀ l : List Event, introCompleted h l = true →
      (run h l).controls.enabled = true ∧ limitsInstalled h (run h l).controls = true ∧
        (run h l).tween = none := by
    intro l hl
    rcases run_lifecycle h l with ⟨hno, _, _⟩ | ⟨_, htw, hctl⟩
    · rw [hl] at hno
      cases hno
    · exact ⟨by rw [hctl, hen1], by rw [hctl, hlim1], htw⟩
  have hiff : (run h evs).controls.enabled = true ↔ introCompleted h evs = true := by
    rcases run_lifecycle h evs with ⟨hno, _, hctl⟩ | ⟨hyes, _, hctl⟩
    · rw [hno, hctl, hen0]
    · rw [hyes, hctl, hen1]
  refine ⟨hiff, ?_, ?_, ?_, ?_⟩
  · rcases run_lifecycle h evs with ⟨hno, _, hctl⟩ | ⟨hyes, _, hctl⟩
    · rw [hno, hctl, hlim0]
    · rw [hyes, hctl, hlim1]
  · rcases run_lifecycle h evs with ⟨hno, htw, _⟩ | ⟨hyes, htw, _⟩
    · rw [hno, htw]
      simp [htw0]
    · rw [hyes, htw]
      simp
  · intro hno
    rcases run_lifecycle h evs with ⟨_, htw, _⟩ | ⟨hyes, _, _⟩
    · exact htw
    · rw [hyes] at hno
      cases hno
  · intro more hen
    exact key (evs ++ more) (introCompleted_append h evs more (hiff.mp hen))

/-- Witness for C6: on the example host, after a frame during the delay, a
click, a frame at clock value 7500 and a resize, the controls are enabled. -/
theorem controls_enabled_iff_intro_completed_witness :
    (run exampleHost
      [Event.frame 500, Event.click, Event.frame 7500, Event.resize 800 600]).controls.enabled
      = true :=
  (controls_enabled_iff_intro_completed exampleHost
    [Event.frame 500, Event.click, Event.frame 7500, Event.resize 800 600]).1.mpr
    (by norm_num [introCompleted, completes, exampleHost])

end CityScene
